import Mathlib

/-!
Shallow embedding of the Vtalk voice-dictation application core
(`src/main/db.ts` and `src/main/index.ts`): the word-count / WPM
computation of `saveTranscript`, the global-hotkey listener state
machine, the `transcribe-audio` pipeline, the `cleanupTranscription`
rewrite step and the `paste-text` clipboard round trip.

Conventions: machine strings are Lean `String` or `List Char`;
JavaScript numbers used for durations are `ℚ`; `Date.now()` timestamps
are `Int`; effectful remote calls are parameters of type
`Except String _` (the outcome the call had in the run under study);
settings reads are a function `String → Option String` mirroring
`getSetting` (`null` becomes `none`).
-/

namespace Vtalk

/-! ## JavaScript string primitives used by `saveTranscript`

`text.trim().split(/\s+/).length` (db.ts line 34).  JS `trim` strips
leading and trailing whitespace; `split(/\s+/)` splits on maximal runs
of whitespace and, notably, yields `[""]` (length 1) on the empty
string. -/

/-- Whitespace class shared by JS `trim` and the regex `\s` (ASCII part:
space, tab, line feed, vertical tab, form feed, carriage return). -/
def isWs (c : Char) : Bool :=
  c = ' ' || c = '\t' || c = '\n' || c = '\x0b' || c = '\x0c' || c = '\r'

/-- JS `String.prototype.trim`: drop leading and trailing whitespace. -/
def jsTrim (s : List Char) : List Char :=
  ((s.dropWhile isWs).reverse.dropWhile isWs).reverse

/-- Helper for `jsSplitWs`: `prevWs` records whether the previous
character belonged to a whitespace run (so that a run of several
whitespace characters produces a single split point, as the regex
`\s+` does); `acc` is the (reversed) current token. -/
def splitWsAux : Bool → List Char → List Char → List (List Char)
  | _, [], acc => [acc.reverse]
  | prevWs, c :: rest, acc =>
      if isWs c then
        if prevWs then
          splitWsAux true rest acc
        else
          acc.reverse :: splitWsAux true rest []
      else
        splitWsAux false rest (c :: acc)

/-- JS `s.split(/\s+/)`: tokens between maximal whitespace runs,
including empty tokens at the ends (so `"" ↦ [""]`, `" " ↦ ["",""]`). -/
def jsSplitWs (s : List Char) : List (List Char) :=
  splitWsAux false s []

/-- `const words = text.trim().split(/\s+/).length` (db.ts line 34). -/
def wordCount (text : List Char) : Nat :=
  (jsSplitWs (jsTrim text)).length

/-- The `wpm` value computed by `saveTranscript` (db.ts lines 34-36):
`minutes = duration / 60; wpm = minutes > 0 ? words / minutes : 0`. -/
def saveTranscriptWpm (text : List Char) (duration : ℚ) : ℚ :=
  let words : ℚ := wordCount text
  let minutes : ℚ := duration / 60
  if minutes > 0 then words / minutes else 0

/-- A concrete text of thirty words, for the WPM instance of the spec. -/
def thirtyWords : List Char :=
  (String.intercalate " " (List.replicate 30 "word")).data

example : wordCount thirtyWords = 30 := by decide
example : wordCount "  ".data = 1 := by decide
example : wordCount "".data = 1 := by decide
example : wordCount "a b".data = 2 := by decide

/-! ## Hotkey listener state machine

`index.ts` lines 461-560: the mutable globals `isRecording`,
`isContinuous`, `currentHotkey`, `lastHotkeyPressTime`, the
`keyboardListener.addListener` callback, and `startRecording` /
`stopRecording`.  A key event carries the key name reported by the
global listener (`e.name` may be absent, and `if (!name) return` also
discards the empty string), its DOWN/UP state, and the `Date.now()`
value observed during the callback.  The observable session effects of
`startRecording` / `stopRecording` are recorded as an emitted action
list. -/

inductive KeyDir where
  | down
  | up
deriving DecidableEq, Repr

structure KeyEvent where
  name : Option String
  dir : KeyDir
  now : Int
deriving DecidableEq, Repr

structure HotkeyState where
  isRecording : Bool
  isContinuous : Bool
  currentHotkey : List String
  lastHotkeyPressTime : Int
deriving DecidableEq, Repr

/-- A recording-session lifecycle effect actually performed. -/
inductive Action where
  | start
  | stop
deriving DecidableEq, Repr

/-- `function startRecording()` (index.ts lines 524-542): returns
immediately when `isRecording` is already set, otherwise sets it and
opens the capture session (emitted as `Action.start`; the UI
notifications have no bearing on the session state). -/
def startRecording (s : HotkeyState) : HotkeyState × List Action :=
  if s.isRecording then (s, [])
  else ({ s with isRecording := true }, [Action.start])

/-- `function stopRecording()` (index.ts lines 544-560): returns
immediately when `isRecording` is already clear, otherwise clears it
and closes the capture session (emitted as `Action.stop`). -/
def stopRecording (s : HotkeyState) : HotkeyState × List Action :=
  if !s.isRecording then (s, [])
  else ({ s with isRecording := false }, [Action.stop])

/-- `if (!currentHotkey.includes(name)) currentHotkey.push(name)`
(index.ts line 473). -/
def addKey (hot : List String) (name : String) : List String :=
  if hot.contains name then hot else hot ++ [name]

/-- `currentHotkey = currentHotkey.filter((k) => k !== name)`
(index.ts line 475). -/
def removeKey (hot : List String) (name : String) : List String :=
  hot.filter (fun k => k != name)

/-- `currentHotkey.includes('LEFT CTRL') || currentHotkey.includes('RIGHT CTRL')`. -/
def isCtrlOf (hot : List String) : Bool :=
  hot.contains "LEFT CTRL" || hot.contains "RIGHT CTRL"

/-- `currentHotkey.includes('LEFT ALT') || currentHotkey.includes('RIGHT ALT')`. -/
def isAltOf (hot : List String) : Bool :=
  hot.contains "LEFT ALT" || hot.contains "RIGHT ALT"

/-- `currentHotkey.includes('SPACE')`. -/
def isSpaceOf (hot : List String) : Bool :=
  hot.contains "SPACE"

/-- The `keyboardListener.addListener` callback (index.ts lines
468-522), as a transition on the four globals, emitting the session
actions performed by the `startRecording` / `stopRecording` calls it
makes. -/
def keyListenerStep (s : HotkeyState) (e : KeyEvent) : HotkeyState × List Action :=
  match e.name with
  | none => (s, [])
  | some name =>
    if name = "" then (s, [])
    else
      let hot := match e.dir with
        | KeyDir.down => addKey s.currentHotkey name
        | KeyDir.up => removeKey s.currentHotkey name
      let s1 := { s with currentHotkey := hot }
      let isCtrl := isCtrlOf hot
      let isAlt := isAltOf hot
      let isSpace := isSpaceOf hot
      match e.dir with
      | KeyDir.down =>
          if s1.isRecording then
            if s1.isContinuous then
              if isCtrl && isAlt && !isSpace then stopRecording s1 else (s1, [])
            else
              if isSpace && isCtrl && isAlt then
                ({ s1 with isContinuous := true }, [])
              else (s1, [])
          else
            if isCtrl && isAlt then
              startRecording { s1 with lastHotkeyPressTime := e.now,
                                       isContinuous := isSpace }
            else (s1, [])
      | KeyDir.up =>
          if s1.isRecording && !s1.isContinuous then
            if !isCtrl || !isAlt then
              if e.now - s1.lastHotkeyPressTime < 300 then
                ({ s1 with isContinuous := true }, [])
              else stopRecording s1
            else (s1, [])
          else (s1, [])

/-- The initial values of the four globals (index.ts lines 463-466). -/
def initHotkeyState : HotkeyState :=
  { isRecording := false, isContinuous := false,
    currentHotkey := [], lastHotkeyPressTime := 0 }

/-- Deliver a whole event sequence, collecting all emitted actions. -/
def runTrace (s : HotkeyState) : List KeyEvent → HotkeyState × List Action
  | [] => (s, [])
  | e :: es =>
      let r1 := keyListenerStep s e
      let r2 := runTrace r1.1 es
      (r2.1, r1.2 ++ r2.2)

/-- Net number of open sessions described by an action list:
each `start` opens one, each `stop` closes one. -/
def sessionBalance (l : List Action) : Int :=
  (l.map (fun a => match a with | Action.start => (1 : Int) | Action.stop => -1)).sum

/-! ## Transcription pipeline

`index.ts` lines 562-691: `cleanupTranscription` and the
`transcribe-audio` IPC handler.  Remote and local effectful operations
are modelled by their outcomes in the run under study.  Settings are
read through `getSetting` at two distinct points of the job: the
synchronous prefix of the handler (before the first `await`) reads
`openai_api_key` and `save_audio`, while the cleanup-related keys are
read only after the transcription/transcode `await`s complete — the
environment therefore carries two settings snapshots,
`settingsAtStart` and `settingsAtCleanup`. -/

/-- JS truthiness of a `getSetting` result: `null` and `''` are falsy. -/
def truthy : Option String → Bool
  | none => false
  | some s => s ≠ ""

/-- JS `a || b` on two `getSetting`-style values. -/
def jsOrOpt (a b : Option String) : Option String :=
  match a with
  | some s => if s = "" then b else some s
  | none => b

/-- JS `getSetting(k) || d`: the stored value unless it is `null` or
the empty string, in which case the default `d`. -/
def orDefault (v : Option String) (d : String) : String :=
  match v with
  | some s => if s = "" then d else s
  | none => d

/-- System prompt for the default `natural` style (index.ts line 569). -/
def naturalPrompt : String :=
  "You are an expert editor. Clean up the following transcript by removing filler words (um, uh, like, you know), fixing grammar, and making it more readable. Use appropriate paragraph breaks and formatting to ensure the text is clear and well-structured, while preserving the original meaning and tone."

/-- System prompt for the `professional` style (index.ts line 572). -/
def professionalPrompt : String :=
  "You are a professional assistant. Rewrite the following transcript into a polished, professional, and formal tone. Remove all filler words, fix grammar, and ensure it sounds business-ready. Organize the output with clear paragraphs and logical structure."

/-- System prompt for the `casual` style (index.ts line 574). -/
def casualPrompt : String :=
  "You are a friendly assistant. Clean up the following transcript to be natural and conversational. Remove filler words but keep the tone warm and approachable. Use casual paragraph breaks to keep it readable."

/-- System prompt for the `concise` style (index.ts line 576). -/
def concisePrompt : String :=
  "You are a concise editor. Rewrite the following transcript to be extremely brief and direct. Remove all unnecessary words and fillers, leaving only the core message. Use bullet points if there are multiple key points."

/-- JS `String.prototype.trim` on a `String`. -/
def strTrim (s : String) : String :=
  String.mk (jsTrim s.data)

/-- `async function cleanupTranscription(text)` (index.ts lines
562-606).  `getSetting` is the settings store as read when this
function runs; `rewrite model systemPrompt userText` is the outcome the
`openai.chat.completions.create` call has for that request in this
run.  On a rewrite error the `catch` returns the input text. -/
def cleanupTranscription
    (getSetting : String → Option String)
    (rewrite : String → String → String → Except String String)
    (text : String) : String :=
  if getSetting "cleanup_enabled" ≠ some "true" then text
  else
    let style := orDefault (getSetting "cleanup_style") "natural"
    let customPrompt := orDefault (getSetting "cleanup_custom_prompt") ""
    let base :=
      if style = "professional" then professionalPrompt
      else if style = "casual" then casualPrompt
      else if style = "concise" then concisePrompt
      else naturalPrompt
    let systemPrompt :=
      if customPrompt ≠ "" then
        base ++ "\n\nAdditional instructions: " ++ customPrompt
      else base
    let model :=
      if style = "professional" || style = "casual" then "gpt-5.2"
      else if style = "concise" then "gpt-5-nano"
      else "gpt-5-mini"
    match rewrite model systemPrompt text with
    | Except.ok content => strTrim content
    | Except.error _ => text

/-- Outcomes of the effectful operations a `transcribe-audio` job
performs, and the two settings snapshots it can observe. -/
structure TranscribeEnv where
  /-- `getSetting` reads in the synchronous prefix of the handler
  (`openai_api_key` at line 614, `save_audio` at line 631). -/
  settingsAtStart : String → Option String
  /-- `getSetting` reads performed after the transcription/transcode
  `await`s (line 673 and inside `cleanupTranscription`). -/
  settingsAtCleanup : String → Option String
  /-- `process.env.OPENAI_API_KEY`. -/
  envApiKey : Option String
  /-- Outcome of `openai.audio.transcriptions.create` (the transcribed
  text, or the rejection message). -/
  transcriptionResult : Except String String
  /-- Outcome of the ffmpeg transcode promise (the permanent mp3 path,
  or the rejection message). -/
  conversionResult : Except String String
  /-- Outcome of the `openai.chat.completions.create` rewrite call,
  as a function of model, system prompt and user text. -/
  rewrite : String → String → String → Except String String

/-- What a `transcribe-audio` job did: the value returned to the
renderer (or the error re-thrown by the `catch`), and whether
`fs.unlinkSync(tempFile)` ran. -/
structure TranscribeOutcome where
  result : Except String (String × Option String)
  tempFileDeleted : Bool
deriving Repr

/-- The `transcribe-audio` IPC handler (index.ts lines 608-691).
The temp file is written first; a missing API key throws; with
`save_audio` enabled the handler `Promise.all`s the transcription and
the transcode, so a rejection of either rejects the join (when both
fail, whichever rejected first wins the race — the model reports the
transcription error, which fixes that race inessentially); the temp
file is unlinked only after the awaited promises resolve; the `catch`
at lines 681-690 shows a notification and re-throws. -/
def transcribeAudio (env : TranscribeEnv) : TranscribeOutcome :=
  let storedKey := env.settingsAtStart "openai_api_key"
  let apiKey := jsOrOpt storedKey env.envApiKey
  if truthy apiKey = false then
    { result := Except.error "No OpenAI API key found. Please check your settings.",
      tempFileDeleted := false }
  else
    let shouldSaveAudio := env.settingsAtStart "save_audio" == some "true"
    if shouldSaveAudio then
      match env.transcriptionResult, env.conversionResult with
      | Except.error e, _ =>
          { result := Except.error e, tempFileDeleted := false }
      | Except.ok _, Except.error e =>
          { result := Except.error e, tempFileDeleted := false }
      | Except.ok whisperText, Except.ok audioPath =>
          let finalLines :=
            cleanupTranscription env.settingsAtCleanup env.rewrite whisperText
          { result := Except.ok (finalLines, some audioPath),
            tempFileDeleted := true }
    else
      match env.transcriptionResult with
      | Except.error e =>
          { result := Except.error e, tempFileDeleted := false }
      | Except.ok whisperText =>
          let finalLines :=
            cleanupTranscription env.settingsAtCleanup env.rewrite whisperText
          { result := Except.ok (finalLines, none),
            tempFileDeleted := true }

/-! ## Paste automator

`index.ts` lines 806-841, the `paste-text` IPC handler.  The handler
snapshots the clipboard, writes the new text, and on Windows and macOS
runs a synthetic-paste script whose completion callback restores the
snapshot after a 1000 ms `setTimeout`; on any other platform no script
runs and nothing is restored.  The model records the sequence of
clipboard writes the handler performs, tagged by phase: phase 0 is the
synchronous body of the handler, phase 1 is the restore window after
the injection callback. -/

inductive Platform where
  | win32
  | darwin
  | linux
deriving DecidableEq, Repr

/-- Clipboard writes performed by the `paste-text` handler, as
`(phase, value)` pairs in program order.  `originalClipboard` is the
`clipboard.readText()` snapshot taken on entry. -/
def pasteWrites (platform : Platform) (originalClipboard text : String) :
    List (Nat × String) :=
  (0, text) ::
    (match platform with
     | Platform.win32 => [(1, originalClipboard)]
     | Platform.darwin => [(1, originalClipboard)]
     | Platform.linux => [])

/-- Clipboard contents observed at the end of `phase`, assuming no
competing writer: the last handler write with phase ≤ the observation
phase, or the initial contents if none. -/
def clipboardAt (initial : String) (writes : List (Nat × String)) (phase : Nat) :
    String :=
  ((writes.filter (fun w => w.1 ≤ phase)).map (fun w => w.2)).getLastD initial

/-! ## Theorems -/

/-- C7: `saveTranscript` computes `wordsPerMinute` as
`wordCount(text) / (duration/60)` whenever `duration > 0`, and as `0`
when `duration = 0`; a text of thirty words with duration 60 s yields
exactly 30. -/
theorem saveTranscript_wpm_formula (text : List Char) (d : ℚ) :
    (0 < d → saveTranscriptWpm text d = (wordCount text : ℚ) / (d / 60)) ∧
    saveTranscriptWpm text 0 = 0 ∧
    saveTranscriptWpm thirtyWords 60 = 30 := by
  refine ⟨?_, ?_, ?_⟩
  · intro hd
    have h60 : (0 : ℚ) < d / 60 := by positivity
    simp [saveTranscriptWpm, h60]
  · norm_num [saveTranscriptWpm]
  · have h : wordCount thirtyWords = 30 := by decide
    norm_num [saveTranscriptWpm, h]

theorem saveTranscript_wpm_formula_witness :
    (0 : ℚ) < 2 ∧
    saveTranscriptWpm "a b".data 2 = (wordCount "a b".data : ℚ) / (2 / 60) :=
  ⟨by norm_num, (saveTranscript_wpm_formula "a b".data 2).1 (by norm_num)⟩

/-- C10: for a text consisting only of whitespace (including the empty
text) and any duration `d > 0`, `saveTranscript`'s word count is `1`
(splitting the trimmed empty string yields one element) and the
resulting `wordsPerMinute` is the strictly positive value `60 / d`. -/
theorem whitespace_only_word_count (text : List Char) (d : ℚ)
    (hws : ∀ c ∈ text, isWs c = true) (hd : 0 < d) :
    wordCount text = 1 ∧ saveTranscriptWpm text d = 60 / d ∧
    0 < saveTranscriptWpm text d := by
  have htrim : jsTrim text = [] := by
    have h1 : text.dropWhile isWs = [] := by
      rw [List.dropWhile_eq_nil_iff]
      exact fun c hc => hws c hc
    simp [jsTrim, h1]
  have hwc : wordCount text = 1 := by
    simp [wordCount, jsSplitWs, htrim, splitWsAux]
  have h60 : (0 : ℚ) < d / 60 := by positivity
  have heq : saveTranscriptWpm text d = 60 / d := by
    simp [saveTranscriptWpm, hwc, h60, one_div_div]
  refine ⟨hwc, heq, ?_⟩
  rw [heq]
  positivity

theorem whitespace_only_word_count_witness :
    (∀ c ∈ "  ".data, isWs c = true) ∧ (0 : ℚ) < 2 ∧
    (wordCount "  ".data = 1 ∧ saveTranscriptWpm "  ".data 2 = 60 / 2 ∧
      0 < saveTranscriptWpm "  ".data 2) :=
  ⟨by decide, by norm_num,
    whitespace_only_word_count "  ".data 2 (by decide) (by norm_num)⟩

/-- Environment for the rewrite-failure claim: valid key, audio saving
off, transcription succeeded, rewrite capability failing. -/
def envC4 : TranscribeEnv :=
  { settingsAtStart := fun k => if k = "openai_api_key" then some "sk-test" else none,
    settingsAtCleanup := fun k => if k = "cleanup_enabled" then some "true" else none,
    envApiKey := none,
    transcriptionResult := Except.ok "hello world",
    conversionResult := Except.error "ffmpeg error",
    rewrite := fun _ _ _ => Except.error "rewrite down" }

/-- C4: when the remote rewrite call fails, `cleanupTranscription`
returns its input text unchanged, and the whole `transcribe-audio`
pipeline returns the pre-rewrite transcription text (with the audio
path of the chosen archival branch) instead of an error. -/
theorem rewrite_failure_fallback (env : TranscribeEnv) (t emsg : String)
    (hkey : truthy (jsOrOpt (env.settingsAtStart "openai_api_key") env.envApiKey) = true)
    (_henabled : env.settingsAtCleanup "cleanup_enabled" = some "true")
    (ht : env.transcriptionResult = Except.ok t)
    (hrw : ∀ model sys u, env.rewrite model sys u = Except.error emsg) :
    (∀ gs text, cleanupTranscription gs env.rewrite text = text) ∧
    (env.settingsAtStart "save_audio" = some "true" →
       ∀ p, env.conversionResult = Except.ok p →
         (transcribeAudio env).result = Except.ok (t, some p)) ∧
    (env.settingsAtStart "save_audio" ≠ some "true" →
       (transcribeAudio env).result = Except.ok (t, none)) := by
  have hclean : ∀ gs text, cleanupTranscription gs env.rewrite text = text := by
    intro gs text
    unfold cleanupTranscription
    split
    · rfl
    · simp [hrw]
  refine ⟨hclean, ?_, ?_⟩
  · intro hsave p hconv
    have hbeq : (env.settingsAtStart "save_audio" == some "true") = true := by
      simp [hsave]
    simp [transcribeAudio, hkey, hbeq, ht, hconv, hclean]
  · intro hsave
    have hbeq : (env.settingsAtStart "save_audio" == some "true") = false := by
      simpa using hsave
    simp [transcribeAudio, hkey, hbeq, ht, hclean]

theorem rewrite_failure_fallback_witness :
    truthy (jsOrOpt (envC4.settingsAtStart "openai_api_key") envC4.envApiKey) = true ∧
    envC4.settingsAtStart "save_audio" ≠ some "true" ∧
    (transcribeAudio envC4).result = Except.ok ("hello world", none) :=
  ⟨by decide, by decide,
    (rewrite_failure_fallback envC4 "hello world" "rewrite down" (by decide) rfl rfl
      (fun _ _ _ => rfl)).2.2 (by decide)⟩

/-- Environment for the transcode-failure claim: valid key, audio
saving on, transcription succeeded, ffmpeg transcode failed, cleanup
disabled (no cleanup settings stored). -/
def envC2 : TranscribeEnv :=
  { settingsAtStart := fun k =>
      if k = "openai_api_key" then some "sk-test"
      else if k = "save_audio" then some "true" else none,
    settingsAtCleanup := fun _ => none,
    envApiKey := none,
    transcriptionResult := Except.ok "hello world",
    conversionResult := Except.error "ffmpeg error",
    rewrite := fun _ _ _ => Except.ok "unused" }

/-- C2 counterexample: with `save_audio` enabled, a successful
transcription and a failing transcode, the `transcribe-audio` handler
rejects with the ffmpeg error (the `Promise.all` join rejects and the
`catch` re-throws); it does not return the transcribed text with
`audioPath = null`. -/
theorem transcode_failure_rejects_job :
    (transcribeAudio envC2).result = Except.error "ffmpeg error" ∧
    (transcribeAudio envC2).result ≠ Except.ok ("hello world", none) := by
  constructor
  · rfl
  · intro h
    rw [show (transcribeAudio envC2).result = Except.error "ffmpeg error" from rfl] at h
    exact Except.noConfusion h

/-- C2 amended: if `persistAudio` (`save_audio`) is enabled and the
transcode fails while the remote transcription succeeds, the pipeline
fails with the transcode error (and the temp file is not deleted); the
transcribed text is not returned. -/
theorem transcode_failure_fails_job (env : TranscribeEnv) (t e : String)
    (hkey : truthy (jsOrOpt (env.settingsAtStart "openai_api_key") env.envApiKey) = true)
    (hsave : env.settingsAtStart "save_audio" = some "true")
    (ht : env.transcriptionResult = Except.ok t)
    (hconv : env.conversionResult = Except.error e) :
    (transcribeAudio env).result = Except.error e ∧
    (transcribeAudio env).tempFileDeleted = false := by
  have hbeq : (env.settingsAtStart "save_audio" == some "true") = true := by
    simp [hsave]
  constructor <;> simp [transcribeAudio, hkey, hbeq, ht, hconv]

theorem transcode_failure_fails_job_witness :
    (transcribeAudio envC2).result = Except.error "ffmpeg error" ∧
    (transcribeAudio envC2).tempFileDeleted = false :=
  transcode_failure_fails_job envC2 "hello world" "ffmpeg error" (by decide) rfl rfl rfl

/-- Start-of-job settings store shared by the two C5 runs: a key is
configured, audio saving and cleanup are off. -/
def startSettingsC5 : String → Option String :=
  fun k => if k = "openai_api_key" then some "sk-test" else none

/-- First C5 run: no settings change happens mid-flight, so the
cleanup-time reads still see the start-of-job values. -/
def envC5a : TranscribeEnv :=
  { settingsAtStart := startSettingsC5,
    settingsAtCleanup := startSettingsC5,
    envApiKey := none,
    transcriptionResult := Except.ok "hello world",
    conversionResult := Except.ok "unused.mp3",
    rewrite := fun _ _ _ => Except.ok "polished text" }

/-- Second C5 run of the same job: identical start-of-job settings and
identical remote outcomes, but `cleanup_enabled` was switched on after
the job began, so the cleanup-time reads see it. -/
def envC5b : TranscribeEnv :=
  { settingsAtStart := startSettingsC5,
    settingsAtCleanup := fun k =>
      if k = "openai_api_key" then some "sk-test"
      else if k = "cleanup_enabled" then some "true" else none,
    envApiKey := none,
    transcriptionResult := Except.ok "hello world",
    conversionResult := Except.ok "unused.mp3",
    rewrite := fun _ _ _ => Except.ok "polished text" }

/-- Third C5 environment, for the amended theorem's witness: like
`envC5a` but with a mid-flight change to a key the cleanup step never
reads. -/
def envC5c : TranscribeEnv :=
  { settingsAtStart := startSettingsC5,
    settingsAtCleanup := fun k =>
      if k = "openai_api_key" then some "sk-test"
      else if k = "theme" then some "dark" else none,
    envApiKey := none,
    transcriptionResult := Except.ok "hello world",
    conversionResult := Except.ok "unused.mp3",
    rewrite := fun _ _ _ => Except.ok "polished text" }

/-- C5 counterexample: two runs of the same job (identical
start-of-job settings, identical transcription/transcode/rewrite
outcomes) that differ only in a settings change made after the job
began return different text, because the cleanup configuration is read
by `cleanupTranscription` when it runs, not snapshotted at job start. -/
theorem cleanup_config_not_snapshotted :
    envC5a.settingsAtStart = envC5b.settingsAtStart ∧
    envC5a.envApiKey = envC5b.envApiKey ∧
    envC5a.transcriptionResult = envC5b.transcriptionResult ∧
    envC5a.conversionResult = envC5b.conversionResult ∧
    envC5a.rewrite = envC5b.rewrite ∧
    (transcribeAudio envC5a).result = Except.ok ("hello world", none) ∧
    (transcribeAudio envC5b).result = Except.ok ("polished text", none) :=
  ⟨rfl, rfl, rfl, rfl, rfl, rfl, rfl⟩

/-- C5 amended: the cleanup configuration is not snapshotted at job
start — it is read when the cleanup step runs, after the
transcription/transcode awaits.  An in-flight job is therefore
sensitive to mid-flight changes of `cleanup_enabled`, `cleanup_style`
and `cleanup_custom_prompt` (see the counterexample), and insensitive
to mid-flight changes of every other key: two runs with identical
start-of-job reads, identical remote outcomes, and identical
cleanup-time values of those three keys produce identical results. -/
theorem cleanup_settings_read_at_cleanup_time (env1 env2 : TranscribeEnv)
    (hstart : env1.settingsAtStart = env2.settingsAtStart)
    (hkey : env1.envApiKey = env2.envApiKey)
    (ht : env1.transcriptionResult = env2.transcriptionResult)
    (hc : env1.conversionResult = env2.conversionResult)
    (hrw : env1.rewrite = env2.rewrite)
    (h1 : env1.settingsAtCleanup "cleanup_enabled"
            = env2.settingsAtCleanup "cleanup_enabled")
    (h2 : env1.settingsAtCleanup "cleanup_style"
            = env2.settingsAtCleanup "cleanup_style")
    (h3 : env1.settingsAtCleanup "cleanup_custom_prompt"
            = env2.settingsAtCleanup "cleanup_custom_prompt") :
    transcribeAudio env1 = transcribeAudio env2 := by
  have hclean : ∀ text,
      cleanupTranscription env1.settingsAtCleanup env1.rewrite text
        = cleanupTranscription env2.settingsAtCleanup env2.rewrite text := by
    intro text
    unfold cleanupTranscription
    rw [h1, h2, h3, hrw]
  unfold transcribeAudio
  rw [hstart, hkey, ht, hc]
  simp only [hclean]

theorem cleanup_settings_read_at_cleanup_time_witness :
    envC5a.settingsAtCleanup "cleanup_enabled"
      = envC5c.settingsAtCleanup "cleanup_enabled" ∧
    transcribeAudio envC5a = transcribeAudio envC5c :=
  ⟨by decide,
    cleanup_settings_read_at_cleanup_time envC5a envC5c rfl rfl rfl rfl rfl
      (by decide) (by decide) (by decide)⟩

/-- Environment for the temp-file claim: valid key, the remote
transcription fails, so the handler takes its `catch` branch. -/
def envC6 : TranscribeEnv :=
  { settingsAtStart := fun k => if k = "openai_api_key" then some "sk-test" else none,
    settingsAtCleanup := fun _ => none,
    envApiKey := none,
    transcriptionResult := Except.error "network down",
    conversionResult := Except.ok "unused.mp3",
    rewrite := fun _ _ _ => Except.ok "unused" }

/-- C6 counterexample: a job that ends in the handled failure branch
(the `catch` shows a notification and re-throws) leaves the temporary
raw-audio file on disk — `fs.unlinkSync(tempFile)` only runs on the
success path. -/
theorem temp_file_not_deleted_on_failure :
    (transcribeAudio envC6).result = Except.error "network down" ∧
    (transcribeAudio envC6).tempFileDeleted = false :=
  ⟨rfl, rfl⟩

/-- Whether the handler returned a value (rather than throwing). -/
def isOkResult : Except String (String × Option String) → Bool
  | Except.ok _ => true
  | Except.error _ => false

/-- C6 amended: the temporary raw-audio file is deleted exactly on the
branches where the job completes successfully; whenever the handler
throws (missing API key, transcription failure, or transcode failure
with `save_audio` on), the temp file is not deleted. -/
theorem temp_file_deleted_iff_success (env : TranscribeEnv) :
    (transcribeAudio env).tempFileDeleted = isOkResult (transcribeAudio env).result := by
  by_cases hk : truthy (jsOrOpt (env.settingsAtStart "openai_api_key") env.envApiKey) = false
  · simp [transcribeAudio, hk, isOkResult]
  · cases hb : env.settingsAtStart "save_audio" == some "true" with
    | true =>
        cases h1 : env.transcriptionResult with
        | error e => simp [transcribeAudio, hk, hb, h1, isOkResult]
        | ok t =>
            cases h2 : env.conversionResult with
            | error e => simp [transcribeAudio, hk, hb, h1, h2, isOkResult]
            | ok p => simp [transcribeAudio, hk, hb, h1, h2, isOkResult]
    | false =>
        cases h1 : env.transcriptionResult with
        | error e => simp [transcribeAudio, hk, hb, h1, isOkResult]
        | ok t => simp [transcribeAudio, hk, hb, h1, isOkResult]

/-- C8 counterexample: on a platform other than Windows and macOS the
`paste-text` handler writes the text but never triggers the
restore-after-injection path, so after the restore window the
clipboard still holds the pasted text, not the pre-paste value. -/
theorem paste_no_restore_on_linux :
    clipboardAt "old" (pasteWrites Platform.linux "old" "new") 0 = "new" ∧
    clipboardAt "old" (pasteWrites Platform.linux "old" "new") 1 = "new" ∧
    clipboardAt "old" (pasteWrites Platform.linux "old" "new") 1 ≠ "old" := by
  refine ⟨rfl, rfl, ?_⟩
  decide

/-- C8 amended: immediately after `paste(text)` the clipboard holds
`text` on every platform; after the restore window elapses with no
competing write, the clipboard holds the pre-paste value on Windows
and macOS, while on any other platform it still holds `text` (no
restore is scheduled). -/
theorem paste_clipboard_roundtrip (p : Platform) (orig text : String) :
    clipboardAt orig (pasteWrites p orig text) 0 = text ∧
    (p = Platform.win32 ∨ p = Platform.darwin →
        clipboardAt orig (pasteWrites p orig text) 1 = orig) ∧
    (p = Platform.linux →
        clipboardAt orig (pasteWrites p orig text) 1 = text) := by
  cases p <;> simp [clipboardAt, pasteWrites]

theorem paste_clipboard_roundtrip_witness :
    clipboardAt "old" (pasteWrites Platform.win32 "old" "new") 0 = "new" ∧
    clipboardAt "old" (pasteWrites Platform.win32 "old" "new") 1 = "old" :=
  ⟨(paste_clipboard_roundtrip Platform.win32 "old" "new").1,
    (paste_clipboard_roundtrip Platform.win32 "old" "new").2.1 (Or.inl rfl)⟩

/-! ### Hotkey state machine lemmas -/

theorem sessionBalance_append (l1 l2 : List Action) :
    sessionBalance (l1 ++ l2) = sessionBalance l1 + sessionBalance l2 := by
  simp [sessionBalance]

/-- Each listener callback changes the session balance exactly by the
change of the `isRecording` flag. -/
theorem keyListenerStep_balance (s : HotkeyState) (e : KeyEvent) :
    sessionBalance (keyListenerStep s e).2
      = (if (keyListenerStep s e).1.isRecording then (1 : Int) else 0)
        - (if s.isRecording then (1 : Int) else 0) := by
  rcases e with ⟨name, dir, now⟩
  rcases s with ⟨rec, cont, hot, tPress⟩
  cases name with
  | none => simp [keyListenerStep, sessionBalance]
  | some n =>
      cases dir <;>
        simp only [keyListenerStep] <;>
        split_ifs <;>
        simp_all [startRecording, stopRecording, sessionBalance]

/-- A `start` action is only ever emitted from the not-recording state. -/
theorem keyListenerStep_start_mem (s : HotkeyState) (e : KeyEvent)
    (h : Action.start ∈ (keyListenerStep s e).2) : s.isRecording = false := by
  rcases e with ⟨name, dir, now⟩
  rcases s with ⟨rec, cont, hot, tPress⟩
  cases name with
  | none => simp [keyListenerStep] at h
  | some n =>
      cases dir <;>
        simp only [keyListenerStep] at h <;>
        split_ifs at h <;>
        simp_all [startRecording, stopRecording]

theorem runTrace_balance (es : List KeyEvent) : ∀ s : HotkeyState,
    sessionBalance (runTrace s es).2
      = (if (runTrace s es).1.isRecording then (1 : Int) else 0)
        - (if s.isRecording then (1 : Int) else 0) := by
  induction es with
  | nil => intro s; simp [runTrace, sessionBalance]
  | cons e es ih =>
      intro s
      have h1 := keyListenerStep_balance s e
      have h2 := ih (keyListenerStep s e).1
      simp only [runTrace, sessionBalance_append, h1, h2]
      split_ifs <;> omega

/-- C1: at most one recording session is open at any time:
`startRecording` is a no-op when a session is already open, a `start`
can only be emitted from the not-recording state, and along every
event sequence from the initial state the number of sessions opened
and not yet closed equals the `isRecording` flag, hence is at most
one. -/
theorem at_most_one_recording_session :
    (∀ s : HotkeyState, s.isRecording = true → startRecording s = (s, [])) ∧
    (∀ (s : HotkeyState) (e : KeyEvent),
        Action.start ∈ (keyListenerStep s e).2 → s.isRecording = false) ∧
    (∀ es : List KeyEvent,
        sessionBalance (runTrace initHotkeyState es).2
          = (if (runTrace initHotkeyState es).1.isRecording then (1 : Int) else 0) ∧
        sessionBalance (runTrace initHotkeyState es).2 ≤ 1) := by
  refine ⟨?_, keyListenerStep_start_mem, ?_⟩
  · intro s h
    simp [startRecording, h]
  · intro es
    have h := runTrace_balance es initHotkeyState
    rw [show initHotkeyState.isRecording = false from rfl] at h
    simp only [Bool.false_eq_true, if_false, sub_zero] at h
    refine ⟨h, ?_⟩
    rw [h]
    split_ifs <;> norm_num

/-- A sample event sequence for the C1 witness: press ctrl, press alt
(session opens), release alt at 500 ms (session closes). -/
def demoEvents : List KeyEvent :=
  [⟨some "LEFT CTRL", KeyDir.down, 0⟩,
   ⟨some "LEFT ALT", KeyDir.down, 0⟩,
   ⟨some "LEFT ALT", KeyDir.up, 500⟩]

theorem at_most_one_recording_session_witness :
    startRecording ⟨true, false, [], 0⟩ = (⟨true, false, [], 0⟩, []) ∧
    (⟨false, false, ["LEFT CTRL"], 0⟩ : HotkeyState).isRecording = false ∧
    (sessionBalance (runTrace initHotkeyState demoEvents).2
        = (if (runTrace initHotkeyState demoEvents).1.isRecording then (1 : Int) else 0) ∧
      sessionBalance (runTrace initHotkeyState demoEvents).2 ≤ 1) :=
  ⟨at_most_one_recording_session.1 ⟨true, false, [], 0⟩ rfl,
   at_most_one_recording_session.2.1 ⟨false, false, ["LEFT CTRL"], 0⟩
     ⟨some "LEFT ALT", KeyDir.down, 0⟩ (by decide),
   at_most_one_recording_session.2.2 demoEvents⟩

/-- C3: in hold mode (recording, not continuous), a key UP after which
ctrl or alt is no longer held either switches to continuous mode
without stopping the recording (when the elapsed time since the
recorded press timestamp is under 300 ms) or stops the recording and
returns to idle (otherwise). -/
theorem hold_release_tap_or_stop (s : HotkeyState) (e : KeyEvent) (n : String)
    (hname : e.name = some n) (hn : n ≠ "") (hdir : e.dir = KeyDir.up)
    (hrec : s.isRecording = true) (hcont : s.isContinuous = false)
    (hrel : isCtrlOf (removeKey s.currentHotkey n) = false ∨
            isAltOf (removeKey s.currentHotkey n) = false) :
    (e.now - s.lastHotkeyPressTime < 300 →
        keyListenerStep s e
          = ({ s with currentHotkey := removeKey s.currentHotkey n,
                      isContinuous := true }, [])) ∧
    (300 ≤ e.now - s.lastHotkeyPressTime →
        keyListenerStep s e
          = ({ s with currentHotkey := removeKey s.currentHotkey n,
                      isRecording := false }, [Action.stop])) := by
  rcases e with ⟨name, dir, now⟩
  rcases s with ⟨rec, cont, hot, tPress⟩
  simp only at hname hdir hrec hcont hrel
  subst hname hdir hrec hcont
  constructor
  · intro hlt
    rcases hrel with h | h <;>
      simp [keyListenerStep, hn, h, hlt, stopRecording]
  · intro hge
    dsimp only at hge
    have hnlt : ¬(now - tPress < 300) := by omega
    rcases hrel with h | h <;>
      simp [keyListenerStep, hn, h, hnlt, stopRecording]

theorem hold_release_tap_or_stop_witness :
    keyListenerStep ⟨true, false, ["LEFT CTRL", "LEFT ALT"], 0⟩
        ⟨some "LEFT ALT", KeyDir.up, 100⟩
      = (⟨true, true, ["LEFT CTRL"], 0⟩, []) :=
  (hold_release_tap_or_stop ⟨true, false, ["LEFT CTRL", "LEFT ALT"], 0⟩
      ⟨some "LEFT ALT", KeyDir.up, 100⟩ "LEFT ALT" rfl (by decide) rfl rfl rfl
      (Or.inr (by decide))).1 (by decide)

/-! ### Key-set lemmas -/

theorem addKey_nodup (hot : List String) (n : String) (h : hot.Nodup) :
    (addKey hot n).Nodup := by
  unfold addKey
  split
  · exact h
  · rename_i hc
    have hmem : n ∉ hot := by
      intro hm
      exact hc (List.elem_eq_true_of_mem hm)
    simp [List.nodup_append, h, hmem]

theorem removeKey_nodup (hot : List String) (n : String) (h : hot.Nodup) :
    (removeKey hot n).Nodup :=
  List.Nodup.filter _ h

/-- The listener callback only ever replaces `currentHotkey` by
`addKey` (on DOWN) or `removeKey` (on UP) of the previous set. -/
theorem keyListenerStep_currentHotkey (s : HotkeyState) (e : KeyEvent) :
    (keyListenerStep s e).1.currentHotkey
      = match e.name with
        | none => s.currentHotkey
        | some n =>
            if n = "" then s.currentHotkey
            else match e.dir with
              | KeyDir.down => addKey s.currentHotkey n
              | KeyDir.up => removeKey s.currentHotkey n := by
  rcases e with ⟨name, dir, now⟩
  rcases s with ⟨rec, cont, hot, tPress⟩
  cases name with
  | none => simp [keyListenerStep]
  | some n =>
      cases dir <;>
        simp only [keyListenerStep] <;>
        split_ifs <;>
        simp_all [startRecording, stopRecording]

theorem keyListenerStep_nodup (s : HotkeyState) (e : KeyEvent)
    (h : s.currentHotkey.Nodup) :
    ((keyListenerStep s e).1.currentHotkey).Nodup := by
  rw [keyListenerStep_currentHotkey]
  rcases e with ⟨name, dir, now⟩
  cases name with
  | none => exact h
  | some n =>
      by_cases hn : n = ""
      · simpa [hn] using h
      · cases dir
        · simpa [hn] using addKey_nodup s.currentHotkey n h
        · simpa [hn] using removeKey_nodup s.currentHotkey n h

theorem runTrace_nodup (es : List KeyEvent) : ∀ s : HotkeyState,
    s.currentHotkey.Nodup → ((runTrace s es).1.currentHotkey).Nodup := by
  induction es with
  | nil => intro s h; simpa [runTrace] using h
  | cons e es ih =>
      intro s h
      simpa [runTrace] using ih (keyListenerStep s e).1 (keyListenerStep_nodup s e h)

/-- C9: after any event sequence the tracked key set contains no
duplicate key names — DOWN inserts a name only when absent (appending
it at the end) and UP removes every occurrence. -/
theorem currentHotkey_no_duplicates :
    (∀ es : List KeyEvent, ((runTrace initHotkeyState es).1.currentHotkey).Nodup) ∧
    (∀ (hot : List String) (n : String),
        addKey hot n = if hot.contains n then hot else hot ++ [n]) ∧
    (∀ (hot : List String) (n : String), (removeKey hot n).contains n = false) := by
  refine ⟨?_, fun _ _ => rfl, ?_⟩
  · intro es
    exact runTrace_nodup es initHotkeyState (by simp [initHotkeyState])
  · intro hot n
    simp [removeKey]

end Vtalk
